import Mathlib

/-
Verification of the real-time message relay (`SocketService`, found twice in
the repository: src/unnamed/part_002 and src/unnamed/part_003, with identical
logic in both copies).

The service keeps two JavaScript `Map`s from socket id to user id
(`connectedUsers` for care-seeking users, `connectedProfessionals` for care
professionals) and five event handlers: `handleLogin`, `handleUserMessage`,
`handleProfessionalMessage`, `handleProfessionalData`, `handleDisconnect`,
plus the read-only helpers `findSocketIdByUserId` and `getConnectionStats`.

Modelling decisions, each forced by the JavaScript semantics of the source:
* A JS `Map` is an insertion-ordered association list: `set` on a present key
  updates the value in place (keeping the original position), otherwise it
  appends; `delete` removes the key; iteration follows insertion order.
* JS values that may be `undefined` (destructured fields of an event payload)
  are modelled as `Option String`; JS strict equality `===` on such values is
  equality of the options (`undefined === undefined` is true).
* A handler that destructures a `null`/`undefined` payload throws a
  `TypeError`; handlers therefore take an `Option` payload and return
  `Except JsError _`.
* `if (professionalSocketId)` tests JS truthiness of a `string | null` value:
  it is true exactly when the value is non-null and not the empty string.
* Socket emissions (`io.to(sid).emit(event, {...})`) are collected in a list
  of `Emit` records; the handlers perform no other externally visible action
  on the transport.
-/

namespace SocketService

/-- A JavaScript `Map` from socket id to user id, as an insertion-ordered
association list.  User-id values may be `undefined` (`none`). -/
abbrev JsMap := List (String × Option String)

/-- `Map.prototype.has`: does some entry have this key? -/
def mapHas (m : JsMap) (k : String) : Bool :=
  m.any (fun p => p.1 == k)

/-- `Map.prototype.set`: update in place when the key is present (the entry
keeps its position in iteration order), otherwise append a fresh entry. -/
def mapSet (m : JsMap) (k : String) (v : Option String) : JsMap :=
  if mapHas m k then
    m.map (fun p => if p.1 == k then (k, v) else p)
  else
    m ++ [(k, v)]

/-- `Map.prototype.delete`: remove the entry with this key. -/
def mapDelete (m : JsMap) (k : String) : JsMap :=
  m.filter (fun p => p.1 != k)

/-- `Map.prototype.size`. -/
def mapSize (m : JsMap) : Nat :=
  m.length

/-- The mutable state of a `SocketService` instance: the two connection maps
(`this.connectedUsers`, `this.connectedProfessionals`). -/
structure SocketState where
  connectedUsers : JsMap
  connectedProfessionals : JsMap
deriving DecidableEq, Repr

/-- The state right after the constructor runs: both maps empty. -/
def initialState : SocketState :=
  ⟨[], []⟩

/-- A thrown JavaScript exception; the only one the handlers can raise is the
`TypeError` from destructuring a `null`/`undefined` payload. -/
inductive JsError where
  | typeError
deriving DecidableEq, Repr

/-- One `io.to(toSocket).emit(eventName, {...})` call.  The payload field
names differ between the three sending handlers (`fromUserId`/`fromUserName`
vs `fromProfessionalId`/`fromProfessionalName`, `message` vs `dados`) but
play the same roles: sender id, sender display name, body, and the literal
`type` tag. -/
structure Emit where
  toSocket : String
  eventName : String
  senderId : Option String
  senderName : Option String
  body : Option String
  msgType : String
deriving DecidableEq, Repr

/-- Destructured `login` payload `{ type, userId }`; either field may be
absent (`undefined`). -/
structure LoginData where
  type : Option String
  userId : Option String
deriving DecidableEq, Repr

/-- Destructured `send_message` payload. -/
structure UserMessageData where
  fromUserId : Option String
  toProfessionalId : Option String
  message : Option String
  fromUserName : Option String
deriving DecidableEq, Repr

/-- Destructured `send_professional_message` payload. -/
structure ProfessionalMessageData where
  fromProfessionalId : Option String
  toUserId : Option String
  message : Option String
  fromProfessionalName : Option String
deriving DecidableEq, Repr

/-- Destructured `send_professional_data` payload. -/
structure ProfessionalDataData where
  fromProfessionalId : Option String
  toUserId : Option String
  dados : Option String
  fromProfessionalName : Option String
deriving DecidableEq, Repr

/-- Body of `handleLogin` after the destructuring succeeded:
`if (type === 'user') connectedUsers.set(socket.id, userId);
else if (type === 'professional') connectedProfessionals.set(...)`;
any other `type` falls through both branches and changes nothing. -/
def loginStep (s : SocketState) (sid : String) (d : LoginData) : SocketState :=
  if d.type = some "user" then
    ⟨mapSet s.connectedUsers sid d.userId, s.connectedProfessionals⟩
  else if d.type = some "professional" then
    ⟨s.connectedUsers, mapSet s.connectedProfessionals sid d.userId⟩
  else
    s

/-- `handleLogin(socket, data)`: destructuring `null`/`undefined` throws. -/
def handleLogin (s : SocketState) (sid : String) (data : Option LoginData) :
    Except JsError SocketState :=
  match data with
  | none => .error .typeError
  | some d => .ok (loginStep s sid d)

/-- `findSocketIdByUserId(userMap, userId)`: scan the map in insertion order
and return the first socket id whose stored user id is `===` the argument. -/
def findSocketIdByUserId (m : JsMap) (userId : Option String) : Option String :=
  match m with
  | [] => none
  | (sid, id) :: rest =>
      if id = userId then some sid else findSocketIdByUserId rest userId

/-- Body of `handleUserMessage` after destructuring: look the recipient
professional up; `if (professionalSocketId)` (JS truthiness: non-null and
non-empty) emit one `receive_message` with `{fromUserId, fromUserName,
message, type: 'user'}`, else only log.  The maps are never written. -/
def userMessageStep (s : SocketState) (d : UserMessageData) :
    SocketState × List Emit :=
  match findSocketIdByUserId s.connectedProfessionals d.toProfessionalId with
  | some sid =>
      if sid ≠ "" then
        (s, [⟨sid, "receive_message", d.fromUserId, d.fromUserName, d.message, "user"⟩])
      else
        (s, [])
  | none => (s, [])

/-- `handleUserMessage(socket, data)`. -/
def handleUserMessage (s : SocketState) (data : Option UserMessageData) :
    Except JsError (SocketState × List Emit) :=
  match data with
  | none => .error .typeError
  | some d => .ok (userMessageStep s d)

/-- Body of `handleProfessionalMessage` after destructuring: symmetric to
`userMessageStep`, recipient looked up in `connectedUsers`, payload
`{fromProfessionalId, fromProfessionalName, message, type: 'professional'}`. -/
def professionalMessageStep (s : SocketState) (d : ProfessionalMessageData) :
    SocketState × List Emit :=
  match findSocketIdByUserId s.connectedUsers d.toUserId with
  | some sid =>
      if sid ≠ "" then
        (s, [⟨sid, "receive_message", d.fromProfessionalId, d.fromProfessionalName, d.message, "professional"⟩])
      else
        (s, [])
  | none => (s, [])

/-- `handleProfessionalMessage(socket, data)`. -/
def handleProfessionalMessage (s : SocketState) (data : Option ProfessionalMessageData) :
    Except JsError (SocketState × List Emit) :=
  match data with
  | none => .error .typeError
  | some d => .ok (professionalMessageStep s d)

/-- Body of `handleProfessionalData` after destructuring: recipient looked up
in `connectedUsers`, event `receive_professional_data`, payload
`{fromProfessionalId, fromProfessionalName, dados, type: 'professional_data'}`. -/
def professionalDataStep (s : SocketState) (d : ProfessionalDataData) :
    SocketState × List Emit :=
  match findSocketIdByUserId s.connectedUsers d.toUserId with
  | some sid =>
      if sid ≠ "" then
        (s, [⟨sid, "receive_professional_data", d.fromProfessionalId, d.fromProfessionalName, d.dados, "professional_data"⟩])
      else
        (s, [])
  | none => (s, [])

/-- `handleProfessionalData(socket, data)`. -/
def handleProfessionalData (s : SocketState) (data : Option ProfessionalDataData) :
    Except JsError (SocketState × List Emit) :=
  match data with
  | none => .error .typeError
  | some d => .ok (professionalDataStep s d)

/-- `handleDisconnect(socket)`: delete the socket id from each map that has
it (the `has` guard only gates the log line; the two blocks touch the two
maps independently). -/
def handleDisconnect (s : SocketState) (sid : String) : SocketState :=
  ⟨if mapHas s.connectedUsers sid then mapDelete s.connectedUsers sid else s.connectedUsers,
   if mapHas s.connectedProfessionals sid then mapDelete s.connectedProfessionals sid
   else s.connectedProfessionals⟩

/-- The statistics record returned by `getConnectionStats()`. -/
structure ConnectionStats where
  connectedUsers : Nat
  connectedProfessionals : Nat
  totalConnections : Nat
deriving DecidableEq, Repr

/-- `getConnectionStats()`: the sizes of the two maps and their sum. -/
def getConnectionStats (s : SocketState) : ConnectionStats :=
  ⟨mapSize s.connectedUsers, mapSize s.connectedProfessionals,
   mapSize s.connectedUsers + mapSize s.connectedProfessionals⟩

/-! ### Specification vocabulary

The design document speaks of a registry with operations `bind`, `unbind`,
`lookup` over roles Seeker/Provider.  In the code, Seeker is realised by the
`'user'` branch (`connectedUsers`) and Provider by the `'professional'`
branch (`connectedProfessionals`); `bind` is a well-formed login event,
`unbind` is the disconnect handler, and `lookup` is `findSocketIdByUserId`
on the role's map.  These are definitional wrappers around the code. -/

/-- The two identity roles of the design document. -/
inductive Role where
  | seeker
  | provider
deriving DecidableEq, Repr

/-- The login `type` string that selects each role's branch in
`handleLogin`. -/
def roleType : Role → String
  | .seeker => "user"
  | .provider => "professional"

/-- The connection map holding each role's bindings. -/
def roleMap (s : SocketState) : Role → JsMap
  | .seeker => s.connectedUsers
  | .provider => s.connectedProfessionals

/-- `bind(connection, role, identity)` is a login event with a well-formed
payload; such a payload never throws, so this is total. -/
def bind (s : SocketState) (c : String) (r : Role) (i : String) : SocketState :=
  loginStep s c ⟨some (roleType r), some i⟩

/-- `unbind(connection)` is the disconnect handler. -/
def unbind (s : SocketState) (c : String) : SocketState :=
  handleDisconnect s c

/-- `lookup(role, identity)` is `findSocketIdByUserId` on the role's map. -/
def lookup (s : SocketState) (r : Role) (i : String) : Option String :=
  findSocketIdByUserId (roleMap s r) (some i)

/-- Connection `c` currently holds a binding for `(r, i)`: the role's map
has an entry `(c, i)`. -/
def holdsBinding (s : SocketState) (c : String) (r : Role) (i : String) : Prop :=
  (c, some i) ∈ roleMap s r

instance (s : SocketState) (c : String) (r : Role) (i : String) :
    Decidable (holdsBinding s c r i) := by
  unfold holdsBinding; infer_instance

/-- The routing outcome of the design document: a handler invocation that
emitted a delivery is `Delivered`, one that emitted nothing is `Dropped`. -/
inductive RouteResult where
  | delivered
  | dropped
deriving DecidableEq, Repr

/-- Classify a handler's emission list as Delivered or Dropped. -/
def routeOutcome (es : List Emit) : RouteResult :=
  if es.isEmpty then .dropped else .delivered

/-- Written from the spec's words for `stats()` ("counts current distinct
bound identities per role"), to compare with what `getConnectionStats`
actually reports: the number of distinct user-id values in a map. -/
def specDistinctIdentityCount (m : JsMap) : Nat :=
  ((m.map Prod.snd).dedup).length

/-! ### Reachable states

A state is reachable when some sequence of handler invocations produces it
from the freshly constructed service.  Message events never touch the maps;
login events carry a destructured (non-null) payload — a null payload throws
before reaching any map operation, so it contributes no state transition. -/

/-- One inbound socket event, with its (already destructured) payload. -/
inductive Op where
  | login (sid : String) (d : LoginData)
  | userMsg (d : UserMessageData)
  | proMsg (d : ProfessionalMessageData)
  | proData (d : ProfessionalDataData)
  | disconnect (sid : String)
deriving DecidableEq, Repr

/-- The state transition of one event. -/
def applyOp (s : SocketState) : Op → SocketState
  | .login sid d => loginStep s sid d
  | .userMsg d => (userMessageStep s d).1
  | .proMsg d => (professionalMessageStep s d).1
  | .proData d => (professionalDataStep s d).1
  | .disconnect sid => handleDisconnect s sid

/-- Run a sequence of events from the freshly constructed service. -/
def exec (ops : List Op) : SocketState :=
  ops.foldl applyOp initialState

/-- A state some event sequence can produce. -/
def Reachable (s : SocketState) : Prop :=
  ∃ ops, exec ops = s

/-- Each connection id occurs as a key at most once — the defining property
of a JS `Map`, which our association lists must maintain. -/
def keysNodup (m : JsMap) : Prop :=
  (m.map Prod.fst).Nodup

/-- Both maps of a state have pairwise distinct keys. -/
def KeysOk (s : SocketState) : Prop :=
  keysNodup s.connectedUsers ∧ keysNodup s.connectedProfessionals

/-- Two successive logins of distinct connections for the same `(role,
identity)` pair, from a fresh service — the duplicate-login scenario. -/
def twoBinds (c1 c2 : String) (r : Role) (i : String) : SocketState :=
  bind (bind initialState c1 r i) c2 r i

/-- Concrete duplicate-login trace: two sockets log in as seeker `s1`. -/
def c1DupState : SocketState :=
  exec [.login "c1" ⟨some "user", some "s1"⟩, .login "c2" ⟨some "user", some "s1"⟩]

/-- Concrete trace: one socket logs in as user `u1`, then re-logs-in as
professional `p1`. -/
def c3TwoRoleState : SocketState :=
  exec [.login "c1" ⟨some "user", some "u1"⟩, .login "c1" ⟨some "professional", some "p1"⟩]

/-- Concrete state: a single seeker binding. -/
def c4SoleState : SocketState :=
  bind initialState "c1" .seeker "s1"

/-- Concrete duplicate-login trace used against claim C4. -/
def c4DupState : SocketState :=
  exec [.login "c1" ⟨some "user", some "s1"⟩, .login "c2" ⟨some "user", some "s1"⟩]

/-- Concrete state: provider `p7` bound on socket `c3` (the spec's P4). -/
def c5ProviderState : SocketState :=
  bind initialState "c3" .provider "p7"

/-- Concrete state with one seeker and no providers. -/
def c6SeekerOnlyState : SocketState :=
  bind initialState "c9" .seeker "u1"

/-- Concrete state: one seeker and one provider, all identities distinct. -/
def c7MixedState : SocketState :=
  exec [.login "c1" ⟨some "user", some "u1"⟩, .login "c2" ⟨some "professional", some "p1"⟩]

/-- Concrete duplicate-login trace used against claim C7. -/
def c7DupState : SocketState :=
  exec [.login "c1" ⟨some "user", some "s1"⟩, .login "c2" ⟨some "user", some "s1"⟩]

/-! ### Helper lemmas -/

theorem find_mem {m : JsMap} {v : Option String} {sid : String}
    (h : findSocketIdByUserId m v = some sid) : (sid, v) ∈ m := by
  induction m with
  | nil => simp [findSocketIdByUserId] at h
  | cons p rest ih =>
      obtain ⟨a, b⟩ := p
      rw [findSocketIdByUserId] at h
      by_cases hb : b = v
      · rw [if_pos hb] at h
        cases h
        exact hb ▸ List.mem_cons_self _ _
      · rw [if_neg hb] at h
        exact List.mem_cons_of_mem _ (ih h)

theorem find_eq_none {m : JsMap} {v : Option String}
    (h : ∀ e ∈ m, e.2 ≠ v) : findSocketIdByUserId m v = none := by
  induction m with
  | nil => rfl
  | cons p rest ih =>
      obtain ⟨a, b⟩ := p
      rw [findSocketIdByUserId]
      rw [if_neg (h (a, b) (List.mem_cons_self _ _))]
      exact ih (fun e he => h e (List.mem_cons_of_mem _ he))

theorem mapHas_eq_false_iff {m : JsMap} {k : String} :
    mapHas m k = false ↔ ∀ e ∈ m, e.1 ≠ k := by
  simp [mapHas]

theorem mem_of_mem_deleteGuard {m : JsMap} {k : String} {e : String × Option String}
    (h : e ∈ (if mapHas m k then mapDelete m k else m)) : e ∈ m ∧ e.1 ≠ k := by
  by_cases hk : mapHas m k
  · rw [if_pos hk] at h
    simp only [mapDelete, List.mem_filter, bne_iff_ne] at h
    exact h
  · rw [if_neg hk] at h
    exact ⟨h, mapHas_eq_false_iff.mp (Bool.eq_false_iff.mpr hk) e h⟩

theorem mem_deleteGuard_of_mem {m : JsMap} {k : String} {e : String × Option String}
    (he : e ∈ m) (hne : e.1 ≠ k) : e ∈ (if mapHas m k then mapDelete m k else m) := by
  by_cases hk : mapHas m k
  · rw [if_pos hk]
    simp only [mapDelete, List.mem_filter, bne_iff_ne]
    exact ⟨he, hne⟩
  · rw [if_neg hk]
    exact he

theorem keysNodup_mapSet {m : JsMap} {k : String} {v : Option String}
    (h : keysNodup m) : keysNodup (mapSet m k v) := by
  unfold keysNodup mapSet
  by_cases hk : mapHas m k
  · rw [if_pos hk, List.map_map]
    have hfst : ∀ p ∈ m,
        (Prod.fst ∘ fun p : String × Option String =>
          if p.1 == k then (k, v) else p) p = p.1 := by
      intro p _
      by_cases hp : p.1 = k
      · simp [hp]
      · simp [hp]
    rw [List.map_congr_left hfst]
    exact h
  · rw [if_neg hk, List.map_append, List.nodup_append]
    refine ⟨h, List.nodup_singleton _, ?_⟩
    intro a ha hb
    simp only [List.map_cons, List.map_nil, List.mem_singleton] at hb
    subst hb
    obtain ⟨p, hp, hpk⟩ := List.mem_map.mp ha
    exact mapHas_eq_false_iff.mp (Bool.eq_false_iff.mpr hk) p hp hpk

theorem keysNodup_mapDelete {m : JsMap} {k : String}
    (h : keysNodup m) : keysNodup (mapDelete m k) := by
  exact h.sublist (List.Sublist.map Prod.fst (List.filter_sublist m))

theorem keysOk_loginStep {s : SocketState} (h : KeysOk s) (sid : String)
    (d : LoginData) : KeysOk (loginStep s sid d) := by
  unfold loginStep
  by_cases h1 : d.type = some "user"
  · rw [if_pos h1]
    exact ⟨keysNodup_mapSet h.1, h.2⟩
  · rw [if_neg h1]
    by_cases h2 : d.type = some "professional"
    · rw [if_pos h2]
      exact ⟨h.1, keysNodup_mapSet h.2⟩
    · rw [if_neg h2]
      exact h

theorem keysOk_handleDisconnect {s : SocketState} (h : KeysOk s) (sid : String) :
    KeysOk (handleDisconnect s sid) := by
  unfold handleDisconnect
  constructor
  · by_cases h1 : mapHas s.connectedUsers sid
    · simpa [h1] using keysNodup_mapDelete h.1
    · simpa [h1] using h.1
  · by_cases h2 : mapHas s.connectedProfessionals sid
    · simpa [h2] using keysNodup_mapDelete h.2
    · simpa [h2] using h.2

theorem userMessageStep_fst (s : SocketState) (d : UserMessageData) :
    (userMessageStep s d).1 = s := by
  unfold userMessageStep
  cases findSocketIdByUserId s.connectedProfessionals d.toProfessionalId with
  | none => rfl
  | some sid => by_cases h : sid = "" <;> simp [h]

theorem professionalMessageStep_fst (s : SocketState) (d : ProfessionalMessageData) :
    (professionalMessageStep s d).1 = s := by
  unfold professionalMessageStep
  cases findSocketIdByUserId s.connectedUsers d.toUserId with
  | none => rfl
  | some sid => by_cases h : sid = "" <;> simp [h]

theorem professionalDataStep_fst (s : SocketState) (d : ProfessionalDataData) :
    (professionalDataStep s d).1 = s := by
  unfold professionalDataStep
  cases findSocketIdByUserId s.connectedUsers d.toUserId with
  | none => rfl
  | some sid => by_cases h : sid = "" <;> simp [h]

theorem keysOk_applyOp {s : SocketState} (h : KeysOk s) (op : Op) :
    KeysOk (applyOp s op) := by
  cases op with
  | login sid d => exact keysOk_loginStep h sid d
  | userMsg d => rw [applyOp, userMessageStep_fst]; exact h
  | proMsg d => rw [applyOp, professionalMessageStep_fst]; exact h
  | proData d => rw [applyOp, professionalDataStep_fst]; exact h
  | disconnect sid => exact keysOk_handleDisconnect h sid

theorem keysOk_foldl {s : SocketState} (h : KeysOk s) (ops : List Op) :
    KeysOk (ops.foldl applyOp s) := by
  induction ops generalizing s with
  | nil => exact h
  | cons op rest ih => exact ih (keysOk_applyOp h op)

theorem keysOk_of_reachable {s : SocketState} (h : Reachable s) : KeysOk s := by
  obtain ⟨ops, rfl⟩ := h
  have h0 : KeysOk initialState :=
    ⟨by simp [keysNodup, initialState], by simp [keysNodup, initialState]⟩
  exact keysOk_foldl h0 ops

theorem twoBinds_eq_seeker {c1 c2 i : String} (h : c1 ≠ c2) :
    twoBinds c1 c2 .seeker i = ⟨[(c1, some i), (c2, some i)], []⟩ := by
  simp [twoBinds, bind, loginStep, roleType, mapSet, mapHas, initialState, h]

theorem twoBinds_eq_provider {c1 c2 i : String} (h : c1 ≠ c2) :
    twoBinds c1 c2 .provider i = ⟨[], [(c1, some i), (c2, some i)]⟩ := by
  have hpu : (some "professional" : Option String) ≠ some "user" := by decide
  simp [twoBinds, bind, loginStep, roleType, mapSet, mapHas, initialState, hpu, h]

/-! ### Claims -/

/-- C1 (counterexample): in the reachable state produced by two logins of
distinct sockets `c1`, `c2` for the same pair `(Seeker, s1)`, BOTH
connections hold a binding for the pair — the pair maps to two connections,
not at most one — and `lookup` returns the OLD connection `c1`, not `c2`:
the newer login did not supersede the older one, and `c1` still holds its
binding. -/
theorem c1_counterexample :
    Reachable c1DupState ∧ holdsBinding c1DupState "c1" Role.seeker "s1" ∧
      holdsBinding c1DupState "c2" Role.seeker "s1" ∧
      lookup c1DupState Role.seeker "s1" = some "c1" :=
  ⟨⟨[.login "c1" ⟨some "user", some "s1"⟩, .login "c2" ⟨some "user", some "s1"⟩], rfl⟩,
   by decide, by decide, by decide⟩

/-- C1 (amended): `handleLogin` never removes another connection's map entry:
after two logins of distinct connections for the same `(role, identity)`
pair, both connections hold bindings for the pair simultaneously, and
`lookup` resolves the pair to the EARLIEST-bound connection (map insertion
order), not to the newer one. -/
theorem c1_loginNeverSupersedes (r : Role) (i c1 c2 : String) (h : c1 ≠ c2) :
    holdsBinding (twoBinds c1 c2 r i) c1 r i ∧
    holdsBinding (twoBinds c1 c2 r i) c2 r i ∧
    lookup (twoBinds c1 c2 r i) r i = some c1 := by
  cases r with
  | seeker =>
      rw [twoBinds_eq_seeker h]
      refine ⟨?_, ?_, ?_⟩ <;>
        simp [holdsBinding, roleMap, lookup, findSocketIdByUserId]
  | provider =>
      rw [twoBinds_eq_provider h]
      refine ⟨?_, ?_, ?_⟩ <;>
        simp [holdsBinding, roleMap, lookup, findSocketIdByUserId]

/-- Witness for C1's amended theorem at concrete inputs. -/
theorem c1_loginNeverSupersedes_witness :
    holdsBinding (twoBinds "c1" "c2" Role.seeker "s1") "c1" Role.seeker "s1" ∧
    holdsBinding (twoBinds "c1" "c2" Role.seeker "s1") "c2" Role.seeker "s1" ∧
    lookup (twoBinds "c1" "c2" Role.seeker "s1") Role.seeker "s1" = some "c1" :=
  c1_loginNeverSupersedes Role.seeker "s1" "c1" "c2" (by decide)

/-- C2: after `bind(c1, Seeker, i); bind(c2, Seeker, i); unbind(c1)` on a
fresh registry with distinct connections, `lookup(Seeker, i) = some c2`;
and, in full generality, unbinding one connection never removes a DIFFERENT
connection's binding (disconnect deletes by socket-id key only). -/
theorem c2_unbindPreservesOthers (i c1 c2 : String) (h : c1 ≠ c2) :
    lookup (unbind (twoBinds c1 c2 Role.seeker i) c1) Role.seeker i = some c2 ∧
    ∀ (s : SocketState) (c c' : String) (r : Role) (j : String),
      c ≠ c' → holdsBinding s c' r j → holdsBinding (unbind s c) c' r j := by
  constructor
  · rw [twoBinds_eq_seeker h]
    simp [lookup, unbind, handleDisconnect, roleMap, mapHas, mapDelete,
          findSocketIdByUserId, h, Ne.symm h]
  · intro s c c' r j hne hb
    cases r with
    | seeker => exact mem_deleteGuard_of_mem hb (Ne.symm hne)
    | provider => exact mem_deleteGuard_of_mem hb (Ne.symm hne)

/-- Witness for C2's theorem at concrete inputs. -/
theorem c2_unbindPreservesOthers_witness :
    lookup (unbind (twoBinds "c1" "c2" Role.seeker "s1") "c1") Role.seeker "s1" = some "c2" :=
  (c2_unbindPreservesOthers "s1" "c1" "c2" (by decide)).1

/-- C3 (counterexample): after socket `c1` logs in as user `u1` and then
re-logs-in as professional `p1` (a re-login with a different role), it holds
TWO bindings at once — the old user binding is not removed — contradicting
"it holds exactly the new binding and only that one". -/
theorem c3_counterexample :
    Reachable c3TwoRoleState ∧ holdsBinding c3TwoRoleState "c1" Role.seeker "u1" ∧
      holdsBinding c3TwoRoleState "c1" Role.provider "p1" :=
  ⟨⟨[.login "c1" ⟨some "user", some "u1"⟩, .login "c1" ⟨some "professional", some "p1"⟩], rfl⟩,
   by decide, by decide⟩

/-- C3 (amended): in every reachable state each connection holds at most one
binding PER ROLE map — its socket id occurs as a key at most once in
`connectedUsers` and at most once in `connectedProfessionals`; re-login with
the same role replaces that entry, but re-login with a different role leaves
the connection bound in both maps (see the counterexample). -/
theorem c3_atMostOneBindingPerRole (s : SocketState) (h : Reachable s) (c : String) :
    (s.connectedUsers.map Prod.fst).count c ≤ 1 ∧
    (s.connectedProfessionals.map Prod.fst).count c ≤ 1 := by
  have hk := keysOk_of_reachable h
  exact ⟨List.nodup_iff_count_le_one.mp hk.1 c, List.nodup_iff_count_le_one.mp hk.2 c⟩

/-- Witness for C3's amended theorem at a concrete reachable state. -/
theorem c3_atMostOneBindingPerRole_witness :
    ((c3TwoRoleState.connectedUsers.map Prod.fst).count "c1" ≤ 1) ∧
    ((c3TwoRoleState.connectedProfessionals.map Prod.fst).count "c1" ≤ 1) :=
  c3_atMostOneBindingPerRole c3TwoRoleState
    ⟨[.login "c1" ⟨some "user", some "u1"⟩, .login "c1" ⟨some "professional", some "p1"⟩], rfl⟩
    "c1"

/-- C4 (counterexample): in `c4DupState`, `c2` is bound to `(Seeker, s1)` by
the LAST bind of the trace — no later bind for the pair ever occurred — yet
after `unbind(c2)` the lookup still resolves to the surviving older
duplicate `c1` instead of returning `none`. -/
theorem c4_counterexample :
    holdsBinding c4DupState "c2" Role.seeker "s1" ∧
    lookup (unbind c4DupState "c2") Role.seeker "s1" = some "c1" := by
  exact ⟨by decide, by decide⟩

/-- C4 (amended): if `c` is the ONLY connection holding a binding for
`(r, i)`, then after `unbind(c)` the lookup for `(r, i)` returns `none`.
This covers the spec's P1 and P3 scenarios; the claim's weaker guard "no
later bind for the pair has occurred" does not suffice, because an EARLIER
surviving duplicate binding keeps the pair resolvable. -/
theorem c4_unbindSoleBindingClearsLookup (s : SocketState) (c : String) (r : Role)
    (i : String) (hb : holdsBinding s c r i)
    (huniq : ∀ c', holdsBinding s c' r i → c' = c) :
    lookup (unbind s c) r i = none := by
  unfold lookup
  apply find_eq_none
  intro e he hev
  have hsplit : e ∈ roleMap s r ∧ e.1 ≠ c := by
    cases r with
    | seeker => exact mem_of_mem_deleteGuard he
    | provider => exact mem_of_mem_deleteGuard he
  apply hsplit.2
  apply huniq e.1
  have he2 : e = (e.1, some i) := by
    obtain ⟨a, b⟩ := e
    simpa using hev
  exact he2 ▸ hsplit.1

/-- Witness for C4's amended theorem: P1 (`bind(c1, Seeker, s1)` then
`unbind(c1)` yields `none`). -/
theorem c4_unbindSoleBindingClearsLookup_witness :
    lookup (unbind c4SoleState "c1") Role.seeker "s1" = none :=
  c4_unbindSoleBindingClearsLookup c4SoleState "c1" Role.seeker "s1" (by decide)
    (by
      intro c' h'
      have h'' : (c', some "s1") ∈ [("c1", some "s1")] := h'
      exact congrArg Prod.fst (List.mem_singleton.mp h''))

/-- C5: when the recipient identity resolves to a live connection `c`
(`findSocketIdByUserId` returns it; transport socket ids are non-empty
strings), each chat handler performs exactly one transport emission,
addressed to `c`, carrying the sender identity, the sender display name, the
text and the message-kind tag, leaves the state unchanged, and the outcome
is Delivered. -/
theorem c5_routeDeliversToBound (s : SocketState) (c : String) (hc : c ≠ "") :
    (∀ d : UserMessageData,
        findSocketIdByUserId s.connectedProfessionals d.toProfessionalId = some c →
        userMessageStep s d =
          (s, [⟨c, "receive_message", d.fromUserId, d.fromUserName, d.message, "user"⟩]) ∧
        routeOutcome (userMessageStep s d).2 = RouteResult.delivered) ∧
    (∀ d : ProfessionalMessageData,
        findSocketIdByUserId s.connectedUsers d.toUserId = some c →
        professionalMessageStep s d =
          (s, [⟨c, "receive_message", d.fromProfessionalId, d.fromProfessionalName,
                d.message, "professional"⟩]) ∧
        routeOutcome (professionalMessageStep s d).2 = RouteResult.delivered) := by
  constructor <;> intro d hd <;>
    simp [userMessageStep, professionalMessageStep, hd, hc, routeOutcome]

/-- Witness for C5's theorem: the spec's P4 scenario. -/
theorem c5_routeDeliversToBound_witness :
    userMessageStep c5ProviderState ⟨some "s1", some "p7", some "Hello", some "Ana"⟩ =
      (c5ProviderState,
       [⟨"c3", "receive_message", some "s1", some "Ana", some "Hello", "user"⟩]) :=
  (((c5_routeDeliversToBound c5ProviderState "c3" (by decide)).1
    ⟨some "s1", some "p7", some "Hello", some "Ana"⟩) (by decide)).1

/-- C6: when no connection holds a binding for the recipient identity, the
handlers raise no exception (`ok`), make no delivery to any connection and
send nothing back to the sender (the emission list is empty — it is the
handlers' entire transport output), and the outcome is Dropped. -/
theorem c6_unboundRecipientDropped (s : SocketState) :
    (∀ d : UserMessageData,
        (∀ e ∈ s.connectedProfessionals, e.2 ≠ d.toProfessionalId) →
        handleUserMessage s (some d) = .ok (s, []) ∧
        routeOutcome (userMessageStep s d).2 = RouteResult.dropped) ∧
    (∀ d : ProfessionalDataData,
        (∀ e ∈ s.connectedUsers, e.2 ≠ d.toUserId) →
        handleProfessionalData s (some d) = .ok (s, []) ∧
        routeOutcome (professionalDataStep s d).2 = RouteResult.dropped) := by
  constructor <;> intro d hd <;>
    simp [handleUserMessage, handleProfessionalData, userMessageStep,
          professionalDataStep, find_eq_none hd, routeOutcome]

/-- Witness for C6's theorem: a message routed to an unbound professional. -/
theorem c6_unboundRecipientDropped_witness :
    handleUserMessage c6SeekerOnlyState
        (some ⟨some "u1", some "p7", some "Oi", some "Bia"⟩) =
      .ok (c6SeekerOnlyState, []) :=
  ((c6_unboundRecipientDropped c6SeekerOnlyState).1
    ⟨some "u1", some "p7", some "Oi", some "Bia"⟩ (by decide)).1

/-- C7 (counterexample): with two sockets both logged in as seeker `s1`,
there is exactly k = 1 distinct bound seeker identity, yet
`getConnectionStats` reports 2 in the seeker slot: it counts map entries
(connections), not distinct bound identities. -/
theorem c7_counterexample :
    getConnectionStats c7DupState = ⟨2, 0, 2⟩ ∧
    specDistinctIdentityCount c7DupState.connectedUsers = 1 := by
  exact ⟨by decide, by decide⟩

/-- C7 (amended): `getConnectionStats` reports, per role, the SIZE of the
role's connection map — the number of currently bound connections — plus
their sum; this equals the number of distinct bound identities exactly when
no identity is bound on two connections of the same role (distinct stored
values). -/
theorem c7_statsCountConnections (s : SocketState) :
    getConnectionStats s =
      ⟨mapSize s.connectedUsers, mapSize s.connectedProfessionals,
       mapSize s.connectedUsers + mapSize s.connectedProfessionals⟩ ∧
    ((s.connectedUsers.map Prod.snd).Nodup →
        specDistinctIdentityCount s.connectedUsers = mapSize s.connectedUsers) ∧
    ((s.connectedProfessionals.map Prod.snd).Nodup →
        specDistinctIdentityCount s.connectedProfessionals =
          mapSize s.connectedProfessionals) := by
  refine ⟨rfl, fun h => ?_, fun h => ?_⟩ <;>
    simp [specDistinctIdentityCount, h.dedup, mapSize]

/-- Witness for C7's amended theorem at a state with distinct identities. -/
theorem c7_statsCountConnections_witness :
    specDistinctIdentityCount c7MixedState.connectedUsers =
      mapSize c7MixedState.connectedUsers :=
  (c7_statsCountConnections c7MixedState).2.1 (by decide)

/-- C8 (counterexample): a `login` signal with an absent/null payload makes
`handleLogin` throw a `TypeError` while destructuring `data`, contradicting
"the handler does not throw" — in the source the exception escapes the
event callback. -/
theorem c8_counterexample :
    handleLogin initialState "c1" none = .error .typeError := rfl

/-- C8 (amended): a null/absent payload makes every handler throw a
`TypeError` at destructuring; for PRESENT payloads no handler throws: a
login whose `type` is neither `'user'` nor `'professional'` is discarded
with the registry unchanged, and the message handlers never modify the
registry whatever fields are missing.  A login with a recognised `type` but
a missing `userId`, however, DOES modify the registry, binding the socket to
the undefined value. -/
theorem c8_malformedEventHandling (s : SocketState) (sid : String) :
    handleLogin s sid none = .error .typeError ∧
    handleUserMessage s none = .error .typeError ∧
    handleProfessionalMessage s none = .error .typeError ∧
    handleProfessionalData s none = .error .typeError ∧
    (∀ d : LoginData, d.type ≠ some "user" → d.type ≠ some "professional" →
        loginStep s sid d = s) ∧
    (∀ d : UserMessageData, (userMessageStep s d).1 = s) ∧
    loginStep s sid ⟨some "user", none⟩ =
      ⟨mapSet s.connectedUsers sid none, s.connectedProfessionals⟩ := by
  refine ⟨rfl, rfl, rfl, rfl, fun d h1 h2 => ?_, userMessageStep_fst s, rfl⟩
  simp [loginStep, h1, h2]

/-- Witness for C8's amended theorem: a login of unrecognised type is
discarded without touching the registry. -/
theorem c8_malformedEventHandling_witness :
    loginStep initialState "c1" ⟨some "bogus", some "u1"⟩ = initialState :=
  (c8_malformedEventHandling initialState "c1").2.2.2.2.1
    ⟨some "bogus", some "u1"⟩ (by decide) (by decide)

/-- C9: the three routing handlers leave both registry maps exactly
unchanged on every input — the state component of their result is the input
state; their only side effect is the emission list handed to the
transport. -/
theorem c9_routingNeverMutatesRegistry (s : SocketState) :
    (∀ d : UserMessageData, (userMessageStep s d).1 = s) ∧
    (∀ d : ProfessionalMessageData, (professionalMessageStep s d).1 = s) ∧
    (∀ d : ProfessionalDataData, (professionalDataStep s d).1 = s) :=
  ⟨userMessageStep_fst s, professionalMessageStep_fst s, professionalDataStep_fst s⟩

/-- C10: the code permits two live connections simultaneously bound to the
same `(role, identity)` — a login never removes a prior binding held by
another connection — and in such a state routing delivers to the
EARLIEST-bound connection, because `findSocketIdByUserId` scans the map in
insertion order and returns the first matching socket id. -/
theorem c10_twoBoundRouteToEarliest (i c1 c2 : String) (h : c1 ≠ c2) (h1 : c1 ≠ "") :
    holdsBinding (twoBinds c1 c2 Role.provider i) c1 Role.provider i ∧
    holdsBinding (twoBinds c1 c2 Role.provider i) c2 Role.provider i ∧
    lookup (twoBinds c1 c2 Role.provider i) Role.provider i = some c1 ∧
    (∀ d : UserMessageData, d.toProfessionalId = some i →
        userMessageStep (twoBinds c1 c2 Role.provider i) d =
          (twoBinds c1 c2 Role.provider i,
           [⟨c1, "receive_message", d.fromUserId, d.fromUserName, d.message, "user"⟩])) := by
  have hpros := @twoBinds_eq_provider c1 c2 i h
  refine ⟨?_, ?_, ?_, ?_⟩
  · rw [hpros]; simp [holdsBinding, roleMap]
  · rw [hpros]; simp [holdsBinding, roleMap]
  · rw [hpros]; simp [lookup, roleMap, findSocketIdByUserId]
  · intro d hd
    rw [hpros]
    simp [userMessageStep, findSocketIdByUserId, hd, h1]

/-- Witness for C10's theorem at concrete inputs. -/
theorem c10_twoBoundRouteToEarliest_witness :
    userMessageStep (twoBinds "a" "b" Role.provider "p7")
        ⟨some "s1", some "p7", some "Hello", some "Ana"⟩ =
      (twoBinds "a" "b" Role.provider "p7",
       [⟨"a", "receive_message", some "s1", some "Ana", some "Hello", "user"⟩]) :=
  (c10_twoBoundRouteToEarliest "p7" "a" "b" (by decide) (by decide)).2.2.2
    ⟨some "s1", some "p7", some "Hello", some "Ana"⟩ rfl

end SocketService
